import Mathlib

/-!
Verification of the YouTube-Transcript app core (`src/app.py`) via a shallow
embedding. Pure string parsing, formatting and the orchestration control flow
of `get_transcript` are translated into Lean definitions; external
collaborators (caption service, yt-dlp download, Whisper transcription, Groq
chat) are modelled as explicit result values supplied to the orchestrator,
and the file-system effect on the audio artifact and the number of download
invocations are tracked as explicit output state.
-/

deriving instance DecidableEq for Except

namespace YTApp

/-- Python truthiness of an optional string: `None` and `""` are falsy. -/
def pyTruthy : Option String → Bool
  | none => false
  | some s => !s.data.isEmpty

/-- `pat` is a literal prefix of `s` (over character lists). -/
def listStartsWith : List Char → List Char → Bool
  | _, [] => true
  | [], _ :: _ => false
  | c :: cs, p :: ps => c == p && listStartsWith cs ps

/-- `pat` occurs as a contiguous substring of `s` (over character lists). -/
def containsSub : List Char → List Char → Bool
  | [], pat => pat.isEmpty
  | c :: cs, pat => listStartsWith (c :: cs) pat || containsSub cs pat

/-- Python `pat in s` substring test. -/
def strContains (s pat : String) : Bool :=
  containsSub s.data pat.data

/-- Leftmost non-overlapping split on a nonempty separator, the semantics of
Python `str.split(sep)`. `skip` counts separator characters still to be
consumed after a match; `acc` holds the current chunk reversed. -/
def splitAux (pat : List Char) : List Char → Nat → List Char → List (List Char)
  | [], _, acc => [acc.reverse]
  | _ :: cs, Nat.succ k, acc => splitAux pat cs k acc
  | c :: cs, 0, acc =>
    if listStartsWith (c :: cs) pat then
      acc.reverse :: splitAux pat cs (pat.length - 1) []
    else
      splitAux pat cs 0 (c :: acc)

/-- Python `s.split(sep)` for a nonempty separator `sep`. -/
def pySplit (s pat : String) : List String :=
  (splitAux pat.data s.data 0 []).map String.mk

/-- Observable outcome of `get_video_id`: the returned id, the playlist
branch (warning + `return None`), the implicit `None` fall-through when a
`youtube.com` URL has neither `v=` nor `list=`, or a raised `ValueError`. -/
inductive VideoIdResult where
  | ok (id : String)
  | unsupported
  | noneFallthrough
  | invalid (msg : String)
deriving DecidableEq, Repr

/-- `get_video_id` from `src/app.py` lines 21-31. The `else` of the Python
source is attached to the outer `if`/`elif` chain, so a `youtube.com` URL
with neither `v=` nor `list=` falls off the end of the function and
implicitly returns `None`. -/
def get_video_id (url : String) : VideoIdResult :=
  if strContains url "youtu.be" then
    .ok ((pySplit ((pySplit url "/").getLastD "") "?").headD "")
  else if strContains url "youtube.com" then
    if strContains url "v=" then
      .ok ((pySplit ((pySplit url "v=").getD 1 "") "&").headD "")
    else if strContains url "list=" then
      .unsupported
    else
      .noneFallthrough
  else
    .invalid "Invalid YouTube URL"

/-- One transcript entry, modelling the Python dict: the `start` and `end`
keys may be absent (`end` is a Lean keyword, so that field is named `stop`);
timestamps are embedded as exact rationals. -/
structure Segment where
  start : Option ℚ
  stop : Option ℚ
  text : String
deriving DecidableEq

/-- Python `f"{n:02d}"`: zero-pad the decimal representation to width 2
(the sign counts toward the width, as in Python). -/
def pad2 (n : Int) : String :=
  let s := toString n
  if s.length < 2 then "0" ++ s else s

/-- `⌊q⌋` computed on the numerator/denominator representation (kernel
reducible, unlike `Int.floor` composed with rational division). -/
def ratFloor (q : ℚ) : Int :=
  Int.ediv q.num q.den

/-- Python `int(t // 60)` for an exact numeric `t`: float floor-division by
60 followed by `int` of an already integral value, i.e. `⌊t / 60⌋`,
computed on the representation. -/
def pyMinutes (t : ℚ) : Int :=
  Int.ediv t.num (t.den * 60)

/-- Python `int(t % 60)`: `t % 60` is `t - 60 * ⌊t / 60⌋`, which lies in
`[0, 60)`, so `int` truncation coincides with the floor, and
`⌊t - 60 * ⌊t / 60⌋⌋ = ⌊t⌋ - 60 * ⌊t / 60⌋`. -/
def pySeconds (t : ℚ) : Int :=
  ratFloor t - 60 * pyMinutes t

/-- The `MM:SS` rendering used by both branches of `format_transcript`. -/
def mmss (t : ℚ) : String :=
  pad2 (pyMinutes t) ++ ":" ++ pad2 (pySeconds t)

/-- One loop iteration of `format_transcript` (`src/app.py` lines 85-92):
if both `start` and `end` keys are present the Whisper shape is used; the
`else` branch reads `entry['start']`, raising `KeyError` when it is absent. -/
def format_entry (entry : Segment) : Except String String :=
  match entry.start, entry.stop with
  | some st, some en =>
    .ok ("[" ++ mmss st ++ " - " ++ mmss en ++ "] " ++ entry.text ++ "\n")
  | some st, none =>
    .ok ("[" ++ mmss st ++ "] " ++ entry.text ++ "\n")
  | none, _ => .error "KeyError: 'start'"

/-- `format_transcript` from `src/app.py` lines 83-93: left-to-right
accumulation of the rendered lines, stopping at the first entry whose
rendering raises. -/
def format_transcript : List Segment → Except String String
  | [] => .ok ""
  | entry :: rest =>
    match format_entry entry with
    | .error e => .error e
    | .ok line =>
      match format_transcript rest with
      | .error e => .error e
      | .ok restStr => .ok (line ++ restStr)

/-- Spec-side `MM:SS` rendering, following the spec text of §4.3:
`minutes = floor(start / 60)`, `seconds = floor(start mod 60)` (where
`start mod 60` is `start - 60 * floor(start / 60)`), both zero-padded to
two digits. -/
def specMMSS (t : ℚ) : String :=
  pad2 ⌊t / 60⌋ ++ ":" ++ pad2 ⌊t - 60 * (⌊t / 60⌋ : ℚ)⌋

/-- Spec-side rendering of one segment: `[MM:SS - MM:SS] text` when `end`
is present, `[MM:SS] text` otherwise, newline-terminated. -/
def specRenderSegment (e : Segment) : String :=
  match e.stop with
  | some en => "[" ++ specMMSS (e.start.getD 0) ++ " - " ++ specMMSS en ++ "] " ++ e.text ++ "\n"
  | none => "[" ++ specMMSS (e.start.getD 0) ++ "] " ++ e.text ++ "\n"

/-- Spec-side formatter: the newline-terminated lines concatenated in
segment order. -/
def specFormat : List Segment → String
  | [] => ""
  | e :: rest => specRenderSegment e ++ specFormat rest

/-- The yt-dlp options dict built by `download_audio` (`src/app.py` lines
35-49); only the keys the claims mention are carried. -/
structure YdlOpts where
  format : String
  outtmpl : String
  quiet : Bool
  proxy : Option String
  cookiefile : Option String
deriving DecidableEq

/-- Observable effect of one `download_audio` call: the options dict it
configures yt-dlp with, the URL list passed to `ydl.download`, and the
path the function returns. -/
structure DownloadCall where
  opts : YdlOpts
  urls : List String
  ret : String
deriving DecidableEq

/-- `download_audio` from `src/app.py` lines 34-52: builds a fixed options
dict (`proxy`/`cookiefile` added only when truthy), downloads, and returns
the constant path `'audio.mp3'`. -/
def download_audio (video_url : String) (proxy : Option String)
    (cookies_file : Option String) : DownloadCall :=
  let base : YdlOpts :=
    { format := "bestaudio/best", outtmpl := "audio.%(ext)s", quiet := true,
      proxy := none, cookiefile := none }
  let withProxy := if pyTruthy proxy then { base with proxy := proxy } else base
  let opts := if pyTruthy cookies_file then { withProxy with cookiefile := cookies_file }
    else withProxy
  { opts := opts, urls := [video_url], ret := "audio.mp3" }

/-- Whisper's `verbose_json` response: a flat `text` and a `segments`
sequence, as consumed by `get_transcript` (`src/app.py` lines 73-74). -/
structure TransResp where
  text : String
  segments : List Segment
deriving DecidableEq

/-- The external collaborators of one `get_transcript` call, modelled as
the results their invocations would produce: the caption fetch
(`api.fetch`, absorbing languages and proxy), the audio download, and the
Whisper transcription (absorbing the `open` of the audio file). -/
structure Collaborators where
  captionFetch : Except String (List Segment)
  audioDownload : Except String Unit
  transcribe : Except String TransResp
deriving DecidableEq

/-- Observable outcome of one `get_transcript` call: the returned pair or
raised `ValueError` message, how many times `download_audio` ran, and
whether the `audio.mp3` artifact is still on disk afterwards (it exists
exactly from a successful download until the `os.remove` on line 75). -/
structure RunTrace where
  result : Except String (String × List Segment)
  downloadCalls : Nat
  audioOnDisk : Bool
deriving DecidableEq

/-- `get_transcript` from `src/app.py` lines 55-80. On caption success the
flat text is the space-join of the entry texts; on caption failure the
fallback runs only when `fallback and video_url` is truthy; a download
failure and a transcription failure both raise wrapped in
`"Failed to download audio for transcription: "`; `os.remove(audio_file)`
executes only after a successful transcription, so a transcription failure
leaves the artifact on disk. -/
def get_transcript (env : Collaborators) (fallback : Bool)
    (video_url : Option String) : RunTrace :=
  match env.captionFetch with
  | .ok transcript =>
    { result := .ok (String.intercalate " " (transcript.map Segment.text), transcript),
      downloadCalls := 0, audioOnDisk := false }
  | .error e =>
    if fallback && pyTruthy video_url then
      match env.audioDownload with
      | .error de =>
        { result := .error ("Failed to download audio for transcription: " ++ de),
          downloadCalls := 1, audioOnDisk := false }
      | .ok _ =>
        match env.transcribe with
        | .ok tr =>
          { result := .ok (tr.text, tr.segments),
            downloadCalls := 1, audioOnDisk := false }
        | .error te =>
          { result := .error ("Failed to download audio for transcription: " ++ te),
            downloadCalls := 1, audioOnDisk := true }
    else
      { result := .error ("Could not fetch transcript: " ++ e),
        downloadCalls := 0, audioOnDisk := false }

/-- One message of the Groq chat request. -/
structure ChatMessage where
  role : String
  content : String
deriving DecidableEq

/-- The chat-completions request issued by `generate_summary`
(`src/app.py` lines 96-111), restricted to the fields the source sets. -/
structure ChatRequest where
  model : String
  messages : List ChatMessage
  temperature : ℚ
  max_tokens : Nat
  top_p : ℚ
  stream : Bool
deriving DecidableEq

/-- The request `generate_summary` sends: one user message whose content is
`f"{custom_prompt} {transcript}"`. -/
def generate_summary_request (transcript : String) (custom_prompt : String)
    (model : String) : ChatRequest :=
  let content := custom_prompt ++ " " ++ transcript
  { model := model, messages := [{ role := "user", content := content }],
    temperature := 1, max_tokens := 8192, top_p := 1, stream := true }

/-! Sanity checks that the embedding evaluates as the Python source does. -/

example : pySplit "https://youtu.be/abc?x=1" "/" = ["https:", "", "youtu.be", "abc?x=1"] := by
  decide

example : pySplit "ab" "ab" = ["", ""] := by decide

example : strContains "https://www.youtube.com/w" "youtu.be" = false := by decide

example : get_video_id "https://www.youtube.com/watch?v=xyz&t=1" = .ok "xyz" := by decide

example : get_video_id "https://example.com/video" = .invalid "Invalid YouTube URL" := by
  decide

example : format_transcript [⟨some 125, none, "hello"⟩] = .ok "[02:05] hello\n" := by
  decide

/-! Bridge lemmas: the representation-level arithmetic of the embedding
equals the mathematical floors named by the spec. -/

lemma ratFloor_eq_floor (q : ℚ) : ratFloor q = ⌊q⌋ := by
  rw [Rat.floor_def]; rfl

lemma pyMinutes_eq_floor (t : ℚ) : pyMinutes t = ⌊t / 60⌋ := by
  have h : t / 60 = ((t.num : ℚ)) / (((t.den * 60 : ℕ) : ℚ)) := by
    conv_lhs => rw [← Rat.num_div_den t]
    rw [div_div]
    push_cast
    ring
  rw [h, Rat.floor_intCast_div_natCast]
  rfl

lemma pySeconds_eq_floor (t : ℚ) : pySeconds t = ⌊t - 60 * (⌊t / 60⌋ : ℚ)⌋ := by
  have h : (60 : ℚ) * (⌊t / 60⌋ : ℚ) = ((60 * ⌊t / 60⌋ : ℤ) : ℚ) := by
    push_cast
    ring
  rw [h, Int.floor_sub_int, pySeconds, ratFloor_eq_floor, pyMinutes_eq_floor]

lemma mmss_eq_specMMSS (t : ℚ) : mmss t = specMMSS t := by
  rw [mmss, specMMSS, pyMinutes_eq_floor, pySeconds_eq_floor]

lemma format_transcript_ok_of_start (segs : List Segment)
    (h : ∀ e ∈ segs, e.start.isSome) :
    format_transcript segs = .ok (specFormat segs) := by
  induction segs with
  | nil => rfl
  | cons e rest ih =>
    have he : e.start.isSome := h e (List.mem_cons_self e rest)
    have hr : ∀ x ∈ rest, x.start.isSome := fun x hx => h x (List.mem_cons_of_mem e hx)
    obtain ⟨st, hst⟩ := Option.isSome_iff_exists.mp he
    cases hstop : e.stop with
    | none =>
      simp [format_transcript, format_entry, hst, hstop, ih hr, specFormat,
        specRenderSegment, mmss_eq_specMMSS]
    | some en =>
      simp [format_transcript, format_entry, hst, hstop, ih hr, specFormat,
        specRenderSegment, mmss_eq_specMMSS]

lemma format_transcript_ok_iff (segs : List Segment) :
    (∃ s, format_transcript segs = .ok s) ↔ (∀ e ∈ segs, e.start.isSome) := by
  constructor
  · intro ⟨s, hs⟩
    induction segs generalizing s with
    | nil => intro e he; cases he
    | cons e rest ih =>
      intro x hx
      cases hst : e.start with
      | none =>
        rw [format_transcript, format_entry, hst] at hs
        cases hs
      | some st =>
        rcases List.mem_cons.mp hx with hxe | hxr
        · rw [hxe, hst]; rfl
        · rw [format_transcript] at hs
          cases hfe : format_entry e with
          | error msg => rw [hfe] at hs; cases hs
          | ok line =>
            rw [hfe] at hs
            cases hrec : format_transcript rest with
            | error msg => rw [hrec] at hs; cases hs
            | ok restStr => exact ih restStr hrec x hxr
  · intro h
    exact ⟨specFormat segs, format_transcript_ok_of_start segs h⟩

/-! Claims -/

/-- C1 (counterexample): with captions failing, fallback enabled, the
download succeeding and the transcription failing, `get_transcript` raises
but the audio artifact is still on disk, refuting deletion on every exit
path. -/
theorem get_transcript_artifact_leak_cex :
    (get_transcript ⟨Except.error "no captions", Except.ok (),
        Except.error "whisper failed"⟩ true (some "https://youtu.be/abc")).audioOnDisk
      = true ∧
    (get_transcript ⟨Except.error "no captions", Except.ok (),
        Except.error "whisper failed"⟩ true (some "https://youtu.be/abc")).result
      = Except.error ("Failed to download audio for transcription: " ++ "whisper failed") := by
  exact ⟨rfl, rfl⟩

/-- C1 (amended): when the caption fetch fails, fallback is enabled with a
truthy source URL and the download produced the artifact, the artifact has
been deleted when `get_transcript` returns exactly when the speech
transcription succeeded; a transcription failure leaves it on disk. -/
theorem get_transcript_artifact_cleanup (env : Collaborators) (e : String)
    (url : Option String) (hc : env.captionFetch = .error e)
    (hu : pyTruthy url = true) (hd : env.audioDownload = .ok ()) :
    (get_transcript env true url).audioOnDisk = true ↔
      (∃ te, env.transcribe = .error te) := by
  cases htr : env.transcribe with
  | ok tr => simp [get_transcript, hc, hu, hd, htr]
  | error te => simp [get_transcript, hc, hu, hd, htr]

theorem get_transcript_artifact_cleanup_witness :
    (get_transcript ⟨Except.error "no captions", Except.ok (),
        Except.ok ⟨"t", []⟩⟩ true (some "u")).audioOnDisk = true ↔
      (∃ te, (Collaborators.mk (Except.error "no captions") (Except.ok ())
        (Except.ok ⟨"t", []⟩)).transcribe = Except.error te) :=
  get_transcript_artifact_cleanup
    ⟨Except.error "no captions", Except.ok (), Except.ok ⟨"t", []⟩⟩
    "no captions" (some "u") rfl rfl rfl

/-- C2 (counterexample): on the transcription path the returned flat text
is the service's `text` field verbatim; with `text = "ab"` over segments
`"a"`, `"b"` it differs from their space-join `"a b"`. -/
theorem get_transcript_flat_text_cex :
    (get_transcript ⟨Except.error "e", Except.ok (),
        Except.ok ⟨"ab", [⟨some 0, some 1, "a"⟩, ⟨some 1, some 2, "b"⟩]⟩⟩
        true (some "u")).result
      = Except.ok ("ab", [⟨some 0, some 1, "a"⟩, ⟨some 1, some 2, "b"⟩]) ∧
    "ab" ≠ String.intercalate " "
      (([⟨some 0, some 1, "a"⟩, ⟨some 1, some 2, "b"⟩] : List Segment).map Segment.text) := by
  refine ⟨rfl, ?_⟩
  decide

/-- C2 (amended): on the caption path the flat text is constructed as the
space-join of the returned segments' texts; on the transcription path the
service's `text` and `segments` fields are returned verbatim, with no
re-derivation of one from the other. -/
theorem get_transcript_flat_text_paths :
    (∀ (env : Collaborators) (fallback : Bool) (url : Option String)
      (entries : List Segment), env.captionFetch = .ok entries →
      (get_transcript env fallback url).result =
        .ok (String.intercalate " " (entries.map Segment.text), entries)) ∧
    (∀ (env : Collaborators) (url : Option String) (e : String) (tr : TransResp),
      env.captionFetch = .error e → pyTruthy url = true →
      env.audioDownload = .ok () → env.transcribe = .ok tr →
      (get_transcript env true url).result = .ok (tr.text, tr.segments)) := by
  constructor
  · intro env fallback url entries h
    simp [get_transcript, h]
  · intro env url e tr hc hu hd htr
    simp [get_transcript, hc, hu, hd, htr]

theorem get_transcript_flat_text_paths_witness :
    (get_transcript ⟨Except.ok [⟨some 0, none, "hi"⟩, ⟨some 2, none, "there"⟩],
        Except.ok (), Except.error "x"⟩ false none).result
      = Except.ok (String.intercalate " "
          (([⟨some 0, none, "hi"⟩, ⟨some 2, none, "there"⟩] : List Segment).map Segment.text),
          [⟨some 0, none, "hi"⟩, ⟨some 2, none, "there"⟩]) ∧
    (get_transcript ⟨Except.error "e", Except.ok (),
        Except.ok ⟨"free text", [⟨some 0, some 1, "free"⟩]⟩⟩ true (some "u")).result
      = Except.ok ((TransResp.mk "free text" [⟨some 0, some 1, "free"⟩]).text,
          (TransResp.mk "free text" [⟨some 0, some 1, "free"⟩]).segments) :=
  ⟨get_transcript_flat_text_paths.1
      ⟨Except.ok [⟨some 0, none, "hi"⟩, ⟨some 2, none, "there"⟩], Except.ok (),
        Except.error "x"⟩ false none _ rfl,
    get_transcript_flat_text_paths.2
      ⟨Except.error "e", Except.ok (), Except.ok ⟨"free text", [⟨some 0, some 1, "free"⟩]⟩⟩
      (some "u") "e" _ rfl rfl rfl rfl⟩

/-- C3: if the caption fetch fails and `fallback` is false, `get_transcript`
raises `ValueError` wrapping the caption-fetch cause and the audio download
is never invoked. -/
theorem get_transcript_no_fallback_no_download (env : Collaborators) (e : String)
    (url : Option String) (h : env.captionFetch = .error e) :
    (get_transcript env false url).result =
      .error ("Could not fetch transcript: " ++ e) ∧
    (get_transcript env false url).downloadCalls = 0 := by
  simp [get_transcript, h]

theorem get_transcript_no_fallback_no_download_witness :
    (get_transcript ⟨Except.error "no captions", Except.ok (), Except.error "x"⟩
        false (some "https://youtu.be/abc")).result
      = Except.error ("Could not fetch transcript: " ++ "no captions") ∧
    (get_transcript ⟨Except.error "no captions", Except.ok (), Except.error "x"⟩
        false (some "https://youtu.be/abc")).downloadCalls = 0 :=
  get_transcript_no_fallback_no_download
    ⟨Except.error "no captions", Except.ok (), Except.error "x"⟩
    "no captions" (some "https://youtu.be/abc") rfl

/-- C4 (counterexample): `format_transcript` is not total — a segment
carrying `end` but no `start` makes it raise `KeyError`, so it has a
failure mode. -/
theorem format_transcript_missing_start_cex :
    format_transcript [⟨none, some 1, "x"⟩] = Except.error "KeyError: 'start'" ∧
    ¬∃ s, format_transcript [⟨none, some 1, "x"⟩] = Except.ok s := by
  refine ⟨by decide, ?_⟩
  intro ⟨s, hs⟩
  rw [format_transcript, format_entry] at hs
  cases hs

/-- C4 (amended): `format_transcript` returns a string exactly when every
input segment carries a `start` field; a segment missing `start` (with or
without an `end` field) makes it fail with a key lookup error. -/
theorem format_transcript_totality (segs : List Segment) :
    (∃ s, format_transcript segs = Except.ok s) ↔ (∀ e ∈ segs, e.start.isSome) :=
  format_transcript_ok_iff segs

theorem format_transcript_totality_witness :
    ((∃ s, format_transcript [⟨some 3, none, "a"⟩] = Except.ok s) ↔
      (∀ e ∈ ([⟨some 3, none, "a"⟩] : List Segment), e.start.isSome)) :=
  format_transcript_totality [⟨some 3, none, "a"⟩]

/-- C5: on segments that carry a `start` field, `format_transcript` renders
each segment in order as one newline-terminated line of the spec's shape
(`[MM:SS - MM:SS] text` when `end` is present, `[MM:SS] text` otherwise,
with floor-based zero-padded minute/second decomposition); in particular
the two concrete examples of the spec hold exactly. -/
theorem format_transcript_spec_refinement :
    (∀ segs : List Segment, (∀ e ∈ segs, e.start.isSome) →
      format_transcript segs = Except.ok (specFormat segs)) ∧
    format_transcript [⟨some 125, none, "hello"⟩] = Except.ok "[02:05] hello\n" ∧
    format_transcript [⟨some 61, some 130, "x"⟩] = Except.ok "[01:01 - 02:10] x\n" := by
  refine ⟨format_transcript_ok_of_start, by decide, by decide⟩

theorem format_transcript_spec_refinement_witness :
    format_transcript [⟨some 125, none, "hello"⟩, ⟨some 61, some 130, "x"⟩]
      = Except.ok (specFormat [⟨some 125, none, "hello"⟩, ⟨some 61, some 130, "x"⟩]) :=
  format_transcript_spec_refinement.1
    [⟨some 125, none, "hello"⟩, ⟨some 61, some 130, "x"⟩] (by decide)

/-- C6 (counterexample): a short-link URL containing `list=` and no `v=`
returns an extracted id, not the Unsupported outcome, refuting the claim
for arbitrary URLs. -/
theorem get_video_id_list_cex :
    get_video_id "https://youtu.be/abc?list=PL123" = VideoIdResult.ok "abc" ∧
    get_video_id "https://youtu.be/abc?list=PL123" ≠ VideoIdResult.unsupported := by
  decide

/-- C6 (amended): for a URL of the long-link form (contains `youtube.com`,
not `youtu.be`) containing `list=` and no `v=`, extraction returns the
Unsupported (playlist) outcome. -/
theorem get_video_id_playlist_unsupported (url : String)
    (h1 : strContains url "youtu.be" = false)
    (h2 : strContains url "youtube.com" = true)
    (h3 : strContains url "v=" = false)
    (h4 : strContains url "list=" = true) :
    get_video_id url = VideoIdResult.unsupported := by
  simp [get_video_id, h1, h2, h3, h4]

theorem get_video_id_playlist_unsupported_witness :
    get_video_id "https://www.youtube.com/playlist?list=PL123" = VideoIdResult.unsupported :=
  get_video_id_playlist_unsupported "https://www.youtube.com/playlist?list=PL123"
    (by decide) (by decide) (by decide) (by decide)

/-- C7 (counterexample): a long-link-host URL lacking both `v=` and `list=`
does not raise the Invalid error — it falls off the end of `get_video_id`
and implicitly returns `None`. -/
theorem get_video_id_fallthrough_cex :
    get_video_id "https://www.youtube.com/feed" = VideoIdResult.noneFallthrough ∧
    get_video_id "https://www.youtube.com/feed" ≠ VideoIdResult.invalid "Invalid YouTube URL" := by
  decide

/-- C7 (amended): a URL containing neither `youtu.be` nor `youtube.com`
raises the Invalid `ValueError`; but a `youtube.com` URL lacking both `v=`
and `list=` instead implicitly returns `None` (the same value as the
Unsupported outcome, without the warning), not Invalid. -/
theorem get_video_id_invalid_scope :
    (∀ url : String, strContains url "youtu.be" = false →
      strContains url "youtube.com" = false →
      get_video_id url = VideoIdResult.invalid "Invalid YouTube URL") ∧
    (∀ url : String, strContains url "youtu.be" = false →
      strContains url "youtube.com" = true →
      strContains url "v=" = false →
      strContains url "list=" = false →
      get_video_id url = VideoIdResult.noneFallthrough) := by
  constructor
  · intro url h1 h2
    simp [get_video_id, h1, h2]
  · intro url h1 h2 h3 h4
    simp [get_video_id, h1, h2, h3, h4]

theorem get_video_id_invalid_scope_witness :
    get_video_id "https://example.com/video" = VideoIdResult.invalid "Invalid YouTube URL" ∧
    get_video_id "https://www.youtube.com/about" = VideoIdResult.noneFallthrough :=
  ⟨get_video_id_invalid_scope.1 "https://example.com/video" (by decide) (by decide),
    get_video_id_invalid_scope.2 "https://www.youtube.com/about"
      (by decide) (by decide) (by decide) (by decide)⟩

/-- C8: `generate_summary` issues exactly one user message whose content is
the instruction, one space, then the transcript flat text, in that order. -/
theorem generate_summary_single_prompt (transcript custom_prompt model : String) :
    (generate_summary_request transcript custom_prompt model).messages =
      [{ role := "user", content := custom_prompt ++ " " ++ transcript }] :=
  rfl

/-- C9: if the caption fetch fails and fallback is enabled but the source
URL is `None` or empty, the fallback branch is skipped: no download occurs
and the error wraps the caption-fetch cause. -/
theorem get_transcript_fallback_requires_url (env : Collaborators) (e : String)
    (url : Option String) (h : env.captionFetch = .error e)
    (hu : pyTruthy url = false) :
    (get_transcript env true url).result =
      .error ("Could not fetch transcript: " ++ e) ∧
    (get_transcript env true url).downloadCalls = 0 := by
  simp [get_transcript, h, hu]

theorem get_transcript_fallback_requires_url_witness :
    (get_transcript ⟨Except.error "no captions", Except.ok (), Except.error "x"⟩
        true (some "")).result
      = Except.error ("Could not fetch transcript: " ++ "no captions") ∧
    (get_transcript ⟨Except.error "no captions", Except.ok (), Except.error "x"⟩
        true (some "")).downloadCalls = 0 :=
  get_transcript_fallback_requires_url
    ⟨Except.error "no captions", Except.ok (), Except.error "x"⟩
    "no captions" (some "") rfl rfl

/-- C10: `download_audio` configures the fixed output template
`audio.%(ext)s` and returns the constant path `audio.mp3` for every input
URL and every proxy/cookies choice, so the artifact path never depends on
the video. -/
theorem download_audio_constant_path (u : String) (p c : Option String)
    (u2 : String) (p2 c2 : Option String) :
    (download_audio u p c).ret = "audio.mp3" ∧
    (download_audio u p c).opts.outtmpl = "audio.%(ext)s" ∧
    (download_audio u p c).ret = (download_audio u2 p2 c2).ret := by
  refine ⟨rfl, ?_, rfl⟩
  cases hp : pyTruthy p <;> cases hc : pyTruthy c <;>
    simp [download_audio, hp, hc]

end YTApp
